import Mathlib

/-!
A verification development for the EVM core of this repository
(src/ethereum): common types, the Frontier interpreter with its stack,
memory and gas schedule, the Homestead and Shanghai variants, and the
per-fork state-transition drivers.  Every definition is a direct
translation of the corresponding Python function; bytes are lists of
naturals below 256, Python ints are Nat or Int (Int where the source can
go negative), dictionaries are association lists, and exceptions are an
Except monad.  The recursive interpreter is driven by an explicit fuel
parameter; all concrete executions in the theorems use ample fuel.
-/

set_option maxRecDepth 20000

namespace EVM

/-! ## Byte and word helpers (ethereum/common/types.py) -/

/-- MAX_U256 from common/types.py. -/
def MAX_U256 : Nat := 2 ^ 256 - 1

/-- Models Python value & MAX_U256 applied by Stack.push (u256 in types.py);
for a possibly negative Python int this is the value taken mod 2^256. -/
def u256I (v : Int) : Nat := (v % ((2 : Int) ^ 256)).toNat

/-- signed_to_unsigned from common/types.py. -/
def signed_to_unsigned (v : Int) : Int := if v ≥ 0 then v else v + 2 ^ 256

/-- unsigned_to_signed from common/types.py. -/
def unsigned_to_signed (v : Nat) : Int :=
  if v < 2 ^ 255 then (v : Int) else (v : Int) - 2 ^ 256

/-- Big-endian bytes to a natural number; models int.from_bytes(_, "big"). -/
def beBytesToNat (l : List Nat) : Nat := l.foldl (fun acc b => acc * 256 + b) 0

/-- A natural number as `len` big-endian bytes; models value.to_bytes(len, "big")
for values that fit (the only way the source calls it). -/
def natToBEPad (n len : Nat) : List Nat :=
  (List.range len).map (fun i => (n >>> (8 * (len - 1 - i))) % 256)

/-- Python int.bit_length(). -/
def bitLength (n : Nat) : Nat := if n = 0 then 0 else Nat.log2 n + 1

/-- (bit_length + 7) // 8, the byte length used by the RLP helpers and exp_cost. -/
def byteLen (n : Nat) : Nat := (bitLength n + 7) / 8

/-- Minimal big-endian byte string of a natural number;
models value.to_bytes((value.bit_length() + 7) // 8, "big"). -/
def natToBEmin (n : Nat) : List Nat := natToBEPad n (byteLen n)

/-- Python floor division a // b (for the gas 64ths rule on Int values). -/
def pydiv (a b : Int) : Int := Int.fdiv a b

/-! ## Keccak (the hash primitive actually called by the source)

The source calls Python hashlib.sha3_256, which is FIPS-202 SHA3-256.
Both FIPS-202 SHA3-256 and pre-FIPS Keccak-256 are the same sponge over
Keccak-f[1600] at rate 1088; they differ only in the padding domain byte
(0x06 for FIPS-202, 0x01 for Keccak).  We define the sponge once,
parameterised by the domain byte, so that the library function the code
calls and the hash the specification prescribes can be compared. -/

/-- Low 64-bit mask used by the Keccak lane arithmetic. -/
def mask64 : Nat := 2 ^ 64 - 1

/-- Rotate a 64-bit lane left by r bits (0 ≤ r ≤ 63). -/
def rotl64 (x r : Nat) : Nat := ((x <<< r) ||| (x >>> (64 - r))) &&& mask64

/-- One step of the degree-8 LFSR generating the iota round-constant
bits (the rc sequence of the Keccak reference). -/
def lfsrNext (r : Nat) : Nat :=
  if r &&& 0x80 ≠ 0 then ((r <<< 1) ^^^ 0x71) &&& 0xFF else (r <<< 1) &&& 0xFF

/-- The LFSR register after t steps, starting from 1. -/
def lfsrState : Nat → Nat
  | 0 => 1
  | t + 1 => lfsrNext (lfsrState t)

/-- The i-th iota round constant: bit rc(7i + j) placed at position
2^j - 1 for j = 0..6. -/
def roundConstant (i : Nat) : Nat :=
  (List.range 7).foldl
    (fun acc j => if lfsrState (7 * i + j) &&& 1 = 1 then acc ||| (1 <<< (2 ^ j - 1)) else acc) 0

/-- Round constants of Keccak-f[1600]. -/
def keccakRC : List Nat := (List.range 24).map roundConstant

/-- The rho offset walk: starting at lane (1,0), step t assigns rotation
(t+1)(t+2)/2 mod 64 and moves to (y, 2x+3y mod 5); lane (0,0) keeps
rotation 0. -/
def rhoWalk : Nat → Nat × Nat → List (Nat × Nat)
  | 0, _ => []
  | n + 1, (x, y) =>
    let t := 24 - (n + 1)
    (x + 5 * y, ((t + 1) * (t + 2) / 2) % 64) :: rhoWalk n (y, (2 * x + 3 * y) % 5)

/-- Rho rotation offsets, indexed by x + 5*y. -/
def keccakRot : List Nat :=
  (List.range 25).map (fun i => ((rhoWalk 24 (1, 0)).lookup i).getD 0)

/-- One round of Keccak-f[1600] on a 25-lane state (lane (x,y) at index x+5y):
theta, rho and pi combined, chi, iota. -/
def keccakRound (s : List Nat) (rc : Nat) : List Nat :=
  let c := (List.range 5).map (fun x =>
    ((((s.getD x 0) ^^^ (s.getD (x + 5) 0)) ^^^ (s.getD (x + 10) 0)) ^^^
      (s.getD (x + 15) 0)) ^^^ (s.getD (x + 20) 0))
  let d := (List.range 5).map (fun x =>
    (c.getD ((x + 4) % 5) 0) ^^^ rotl64 (c.getD ((x + 1) % 5) 0) 1)
  let a := (List.range 25).map (fun i => (s.getD i 0) ^^^ (d.getD (i % 5) 0))
  let b := (List.range 25).map (fun j =>
    let x := (j % 5 + 3 * (j / 5)) % 5
    let y := j % 5
    rotl64 (a.getD (x + 5 * y) 0) (keccakRot.getD (x + 5 * y) 0))
  let e := (List.range 25).map (fun j =>
    (b.getD j 0) ^^^
      (((b.getD ((j % 5 + 1) % 5 + 5 * (j / 5)) 0) ^^^ mask64) &&&
        (b.getD ((j % 5 + 2) % 5 + 5 * (j / 5)) 0)))
  e.set 0 ((e.getD 0 0) ^^^ rc)

/-- The full Keccak-f[1600] permutation: 24 rounds. -/
def keccakF (s : List Nat) : List Nat := keccakRC.foldl keccakRound s

/-- Multi-rate padding with domain-separation byte ds
(0x01 for pre-FIPS Keccak, 0x06 for FIPS-202 SHA3). -/
def keccakPad (rate ds : Nat) (m : List Nat) : List Nat :=
  let q := rate - m.length % rate
  if q = 1 then m ++ [ds ||| 0x80]
  else m ++ (ds :: (List.replicate (q - 2) 0 ++ [0x80]))

/-- Little-endian bytes to a natural number. -/
def leBytesToNat (l : List Nat) : Nat := l.foldr (fun b acc => acc * 256 + b) 0

/-- A natural number to its 8 little-endian bytes. -/
def natToLE8 (n : Nat) : List Nat := (List.range 8).map (fun i => (n >>> (8 * i)) % 256)

/-- XOR one 136-byte (rate 1088) block into the state and permute. -/
def absorbBlock (s block : List Nat) : List Nat :=
  keccakF ((List.range 25).map (fun i =>
    (s.getD i 0) ^^^ (if i < 17 then leBytesToNat ((block.drop (8 * i)).take 8) else 0)))

/-- Absorb all 136-byte blocks of the (already padded) message. -/
def absorbAll : Nat → List Nat → List Nat → List Nat
  | 0, s, _ => s
  | fuel + 1, s, rest =>
    if rest.isEmpty then s
    else absorbAll fuel (absorbBlock s (rest.take 136)) (rest.drop 136)

/-- The 256-bit Keccak sponge (rate 1088, capacity 512) with domain byte ds;
returns the 32 digest bytes. -/
def keccakSponge (ds : Nat) (m : List Nat) : List Nat :=
  let p := keccakPad 136 ds m
  let s := absorbAll (p.length + 1) (List.replicate 25 0) p
  ((List.range 4).map (fun i => natToLE8 (s.getD i 0))).flatten

/-- Modelled from the spec: Keccak-256 with pre-FIPS-202 padding (domain
byte 0x01), the hash the specification prescribes for the SHA3 opcode and
for contract-address derivation.  The repository has no own hash
implementation; this definition exists to be compared against the library
function the code actually calls. -/
def keccak256 (m : List Nat) : List Nat := keccakSponge 0x01 m

/-- FIPS-202 SHA3-256 (domain byte 0x06).  This models Python
hashlib.sha3_256, the function the source actually calls in
create_address, create2_address and the SHA3 / EXTCODEHASH opcodes. -/
def sha3_256 (m : List Nat) : List Nat := keccakSponge 0x06 m

/-! ## RLP and contract addresses (common/types.py lines 391-430) -/

/-- rlp_encode_bytes from create_address in common/types.py. -/
def rlp_encode_bytes (d : List Nat) : List Nat :=
  if d.length = 1 ∧ d.getD 0 0 < 0x80 then d
  else if d.length < 56 then (0x80 + d.length) :: d
  else
    let lb := natToBEmin d.length
    (0xB7 + lb.length) :: (lb ++ d)

/-- rlp_encode_int from create_address in common/types.py. -/
def rlp_encode_int (v : Nat) : List Nat :=
  if v = 0 then [0x80]
  else if v < 0x80 then [v]
  else rlp_encode_bytes (natToBEmin v)

/-- create_address from common/types.py: last 20 bytes of the
hashlib.sha3_256 digest of RLP([sender, nonce]).  Addresses are carried as
their 160-bit big-endian value. -/
def create_address (sender nonce : Nat) : Nat :=
  let sender_encoded := rlp_encode_bytes (natToBEPad sender 20)
  let nonce_encoded := rlp_encode_int nonce
  let content := sender_encoded ++ nonce_encoded
  let rlp :=
    if content.length < 56 then (0xC0 + content.length) :: content
    else
      let lb := natToBEmin content.length
      (0xF7 + lb.length) :: (lb ++ content)
  beBytesToNat ((sha3_256 rlp).drop 12)

/-- create2_address from common/types.py: last 20 bytes of
hashlib.sha3_256(0xFF || sender || salt || init_code_hash). -/
def create2_address (sender : Nat) (salt32 ich : List Nat) : Nat :=
  beBytesToNat ((sha3_256 (0xFF :: (natToBEPad sender 20 ++ salt32 ++ ich))).drop 12)

/-! ## Accounts and world state (common/types.py) -/

/-- EVM account state (class Account).  Balance is Int because the drivers
can push it negative through the refund arithmetic. -/
structure Account where
  nonce : Nat := 0
  balance : Int := 0
  code : List Nat := []
  storage : List (Nat × Nat) := []
deriving DecidableEq, Repr

/-- Update-or-append on an association list, the observable behaviour of
assignment into a Python dict. -/
def setAssoc (l : List (Nat × Nat)) (k v : Nat) : List (Nat × Nat) :=
  if l.any (fun p => p.1 == k) then l.map (fun p => if p.1 == k then (k, v) else p)
  else l ++ [(k, v)]

/-- Key removal on an association list (dict.pop(key, None)). -/
def delAssoc (l : List (Nat × Nat)) (k : Nat) : List (Nat × Nat) :=
  l.filter (fun p => p.1 != k)

/-- EVM world state (class State): mapping of addresses to accounts. -/
structure State where
  accounts : List (Nat × Account) := []
deriving DecidableEq, Repr

/-- State.get_account: the account at an address, or an empty account. -/
def State.get_account (s : State) (a : Nat) : Account :=
  (s.accounts.lookup a).getD {}

/-- State.set_account. -/
def State.set_account (s : State) (a : Nat) (acc : Account) : State :=
  if s.accounts.any (fun p => p.1 == a) then
    ⟨s.accounts.map (fun p => if p.1 == a then (a, acc) else p)⟩
  else ⟨s.accounts ++ [(a, acc)]⟩

/-- State.get_balance. -/
def State.get_balance (s : State) (a : Nat) : Int := (s.get_account a).balance

/-- State.set_balance (copy_with at field granularity). -/
def State.set_balance (s : State) (a : Nat) (b : Int) : State :=
  s.set_account a { s.get_account a with balance := b }

/-- State.get_code. -/
def State.get_code (s : State) (a : Nat) : List Nat := (s.get_account a).code

/-- State.set_code. -/
def State.set_code (s : State) (a : Nat) (c : List Nat) : State :=
  s.set_account a { s.get_account a with code := c }

/-- State.get_storage: storage value at address and key, default 0. -/
def State.get_storage (s : State) (a k : Nat) : Nat :=
  ((s.get_account a).storage.lookup k).getD 0

/-- State.set_storage: a zero value deletes the key, any other value sets it. -/
def State.set_storage (s : State) (a k v : Nat) : State :=
  let acc := s.get_account a
  let ns := if v = 0 then delAssoc acc.storage k else setAssoc acc.storage k v
  s.set_account a { acc with storage := ns }

/-- State.increment_nonce. -/
def State.increment_nonce (s : State) (a : Nat) : State :=
  s.set_account a { s.get_account a with nonce := (s.get_account a).nonce + 1 }

/-- State.account_exists: present with any non-default field. -/
def State.account_exists (s : State) (a : Nat) : Bool :=
  match s.accounts.lookup a with
  | none => false
  | some acc => acc.nonce != 0 || acc.balance != 0 || acc.code != []

/-- State.copy: a deep copy; on the pure values of this embedding the
observable behaviour of deepcopy is the identity. -/
def State.copy (s : State) : State := s

/-! ## Transactions, environment, messages, results (common/types.py) -/

/-- Class Transaction; to = none marks contract creation. -/
structure Transaction where
  sender : Nat
  «to» : Option Nat := none
  value : Nat := 0
  data : List Nat := []
  gas : Int := 21000
  gas_price : Int := 0
  nonce : Nat := 0
deriving DecidableEq, Repr

/-- Class Environment (block environment context); block_hashes maps block
numbers to the 256-bit value of the stored 32-byte hash. -/
structure Environment where
  caller : Nat := 0
  origin : Nat := 0
  block_hashes : List (Nat × Nat) := []
  coinbase : Nat := 0
  number : Nat := 0
  gas_limit : Nat := 10000000
  gas_price : Int := 0
  timestamp : Nat := 0
  difficulty : Nat := 0
  chain_id : Nat := 1
  base_fee : Nat := 0
deriving DecidableEq, Repr

/-- Class Log: topics are carried as their 256-bit values (the source
serialises each popped topic as 32 big-endian bytes). -/
structure Log where
  address : Nat
  topics : List Nat := []
  data : List Nat := []
deriving DecidableEq, Repr

/-- Class Message: a call frame context. -/
structure Message where
  caller : Nat
  target : Nat
  value : Nat := 0
  data : List Nat := []
  gas : Int := 0
  depth : Nat := 0
  code : List Nat := []
  code_address : Nat := 0
  is_static : Bool := false
  is_create : Bool := false
deriving DecidableEq, Repr

/-- The error strings stored in ExecutionResult.error, as tags: the
exception classes of the interpreter (interpreter.py, stack.py), the
validation messages of the fork drivers, and the two deployment failure
messages of the drivers. -/
inductive EVMError where
  | outOfGas
  | invalidOpcode
  | invalidJump
  | writeProtection
  | callDepth
  | stackOverflow
  | stackUnderflow
  | returnDataOutOfBounds
  | txInvalidNonce
  | txIntrinsicGas
  | txInsufficientFunds
  | txInitcodeTooLarge
  | codeDeployGas
  | codeSizeExceeded
  | fuelExhausted
deriving DecidableEq, Repr

/-- Class ExecutionResult. -/
structure ExecutionResult where
  success : Bool := true
  gas_used : Int := 0
  gas_remaining : Int := 0
  return_data : List Nat := []
  logs : List Log := []
  error : Option EVMError := none
  created_address : Option Nat := none
deriving DecidableEq, Repr

end EVM

namespace EVM

/-! ## Stack (frontier/vm/stack.py)

The source keeps the top of the stack at the end of a Python list; this
embedding keeps the top at the head.  Depth d from the top is index d. -/

/-- Class Stack: 256-bit values, depth limit 1024, top at the head. -/
structure Stack where
  data : List Nat := []
deriving DecidableEq, Repr

/-- Stack.MAX_DEPTH. -/
def Stack.MAX_DEPTH : Nat := 1024

/-- Stack.push: overflow at depth 1024, value reduced to U256. -/
def Stack.push (s : Stack) (v : Int) : Except EVMError Stack :=
  if s.data.length ≥ Stack.MAX_DEPTH then .error .stackOverflow
  else .ok ⟨u256I v :: s.data⟩

/-- Stack.pop: underflow on the empty stack. -/
def Stack.pop (s : Stack) : Except EVMError (Nat × Stack) :=
  match s.data with
  | [] => .error .stackUnderflow
  | x :: xs => .ok (x, ⟨xs⟩)

/-- Stack.dup n (1 ≤ n ≤ 16 at every call site): duplicate the n-th item
onto the top; underflow is checked before overflow, as in the source. -/
def Stack.dup (s : Stack) (n : Nat) : Except EVMError Stack :=
  if n > s.data.length then .error .stackUnderflow
  else if s.data.length ≥ Stack.MAX_DEPTH then .error .stackOverflow
  else .ok ⟨s.data.getD (n - 1) 0 :: s.data⟩

/-- Stack.swap n (1 ≤ n ≤ 16 at every call site): exchange the top with
the item at depth n. -/
def Stack.swap (s : Stack) (n : Nat) : Except EVMError Stack :=
  if n + 1 > s.data.length then .error .stackUnderflow
  else .ok ⟨(s.data.set 0 (s.data.getD n 0)).set n (s.data.getD 0 0)⟩

/-! ## Memory (frontier/vm/memory.py) -/

/-- Class Memory: a byte buffer expanding in 32-byte words. -/
structure Memory where
  data : List Nat := []
deriving DecidableEq, Repr

/-- Memory.word_size: 32-byte words needed for a byte count. -/
def Memory.word_size (size : Nat) : Nat := (size + 31) / 32

/-- The inner memory_cost formula 3*w + w*w // 512 shared by
Memory.expansion_cost and GasSchedule.memory_expansion_cost. -/
def memory_cost (w : Nat) : Nat := 3 * w + w * w / 512

/-- Memory._expand: grow to the word-aligned size covering offset+size,
zero-filling; size-0 accesses do not expand. -/
def Memory.expand (m : Memory) (offset size : Nat) : Memory :=
  if size = 0 then m
  else
    let required_words := Memory.word_size (offset + size)
    if required_words > Memory.word_size m.data.length then
      ⟨m.data ++ List.replicate (required_words * 32 - m.data.length) 0⟩
    else m

/-- Memory.expansion_cost: the cost delta for expanding to cover
(offset, size); 0 for size 0 or no growth. -/
def Memory.expansion_cost (m : Memory) (offset size : Nat) : Nat :=
  if size = 0 then 0
  else
    let current_words := Memory.word_size m.data.length
    let required_words := Memory.word_size (offset + size)
    if required_words ≤ current_words then 0
    else memory_cost required_words - memory_cost current_words

/-- Memory.load: expand, then return the byte slice (with the expanded
memory, since the source mutates in place). -/
def Memory.load (m : Memory) (offset size : Nat) : List Nat × Memory :=
  if size = 0 then ([], m)
  else
    let m1 := m.expand offset size
    ((m1.data.drop offset).take size, m1)

/-- Memory.load_word: 32 bytes big-endian. -/
def Memory.load_word (m : Memory) (offset : Nat) : Nat × Memory :=
  let (bs, m1) := m.load offset 32
  (beBytesToNat bs, m1)

/-- Memory.store: expand, then splice the bytes in. -/
def Memory.store (m : Memory) (offset : Nat) (bytes : List Nat) : Memory :=
  if bytes = [] then m
  else
    let m1 := m.expand offset bytes.length
    ⟨(m1.data.take offset) ++ bytes ++ (m1.data.drop (offset + bytes.length))⟩

/-- Memory.store_word: value mod 2^256 as 32 big-endian bytes. -/
def Memory.store_word (m : Memory) (offset : Nat) (v : Nat) : Memory :=
  m.store offset (natToBEPad (v &&& MAX_U256) 32)

/-- Memory.store_byte: the low byte of the value. -/
def Memory.store_byte (m : Memory) (offset v : Nat) : Memory :=
  let m1 := m.expand offset 1
  ⟨m1.data.set offset (v % 256)⟩

/-- Memory.size: current byte length. -/
def Memory.msize (m : Memory) : Nat := m.data.length

/-! ## Gas schedule (frontier/vm/gas.py)

HomesteadGasSchedule re-states G_CREATE with the same value 32000 and
ShanghaiGasSchedule only adds G_PUSH0 = 2 (= G_BASE, used directly in the
Shanghai dispatch loop), so a single constant table serves all three
forks. -/

namespace GasSchedule

def G_ZERO : Nat := 0
def G_BASE : Nat := 2
def G_VERYLOW : Nat := 3
def G_LOW : Nat := 5
def G_MID : Nat := 8
def G_HIGH : Nat := 10
def G_MEMORY : Nat := 3
def G_COPY : Nat := 3
def G_SLOAD : Nat := 50
def G_SSET : Nat := 20000
def G_SRESET : Nat := 5000
def G_SCLEAR : Nat := 5000
def G_CREATE : Nat := 32000
def G_CODEDEPOSIT : Nat := 200
def G_CALL : Nat := 40
def G_CALLVALUE : Nat := 9000
def G_CALLSTIPEND : Nat := 2300
def G_NEWACCOUNT : Nat := 25000
def G_JUMPDEST : Nat := 1
def G_EXP : Nat := 10
def G_EXPBYTE : Nat := 10
def G_SHA3 : Nat := 30
def G_SHA3WORD : Nat := 6
def G_BALANCE : Nat := 20
def G_EXTCODESIZE : Nat := 20
def G_EXTCODECOPY : Nat := 20
def G_BLOCKHASH : Nat := 20
def G_LOG : Nat := 375
def G_LOGDATA : Nat := 8
def G_LOGTOPIC : Nat := 375
def G_SELFDESTRUCT : Nat := 0
def G_TRANSACTION : Nat := 21000
def G_TXCREATE : Nat := 53000
def G_TXDATAZERO : Nat := 4
def G_TXDATANONZERO : Nat := 68
def G_PUSH0 : Nat := 2

/-- GasSchedule.copy_cost. -/
def copy_cost (size : Nat) : Nat := G_COPY * ((size + 31) / 32)

/-- GasSchedule.sha3_cost. -/
def sha3_cost (size : Nat) : Nat := G_SHA3 + G_SHA3WORD * ((size + 31) / 32)

/-- GasSchedule.exp_cost. -/
def exp_cost (exponent : Nat) : Nat :=
  if exponent = 0 then G_EXP else G_EXP + G_EXPBYTE * byteLen exponent

/-- GasSchedule.log_cost. -/
def log_cost (data_size num_topics : Nat) : Nat :=
  G_LOG + G_LOGDATA * data_size + G_LOGTOPIC * num_topics

/-- GasSchedule.call_cost. -/
def call_cost (value : Nat) (target_exists : Bool) : Nat :=
  G_CALL + (if value > 0 then G_CALLVALUE + (if !target_exists then G_NEWACCOUNT else 0) else 0)

/-- GasSchedule.sstore_cost (Frontier rules). -/
def sstore_cost (current_value new_value : Nat) : Nat :=
  if current_value = 0 ∧ new_value ≠ 0 then G_SSET else G_SRESET

/-- GasSchedule.sstore_refund (unused by the interpreter, kept for
completeness). -/
def sstore_refund (current_value new_value : Nat) : Nat :=
  if current_value ≠ 0 ∧ new_value = 0 then G_SCLEAR else 0

/-- GasSchedule.transaction_intrinsic_gas. -/
def transaction_intrinsic_gas (data : List Nat) (is_create : Bool) : Nat :=
  data.foldl (fun g b => g + (if b = 0 then G_TXDATAZERO else G_TXDATANONZERO))
    (if is_create then G_TXCREATE else G_TRANSACTION)

end GasSchedule

/-! ## Jump destination analysis (Interpreter._find_jumpdests) -/

/-- The scanning loop of _find_jumpdests; the fuel bounds the number of
iterations and code.length always suffices since the index grows by at
least one per step. -/
def findJumpdestsAux : Nat → List Nat → Nat → List Nat
  | 0, _, _ => []
  | fuel + 1, code, i =>
    if i < code.length then
      let opcode := code.getD i 0
      let here := if opcode = 0x5B then [i] else []
      let skip := if 0x60 ≤ opcode ∧ opcode ≤ 0x7F then opcode - 0x5F else 0
      here ++ findJumpdestsAux fuel code (i + skip + 1)
    else []

/-- Interpreter._find_jumpdests: positions of JUMPDEST bytes that are not
inside PUSH immediate data. -/
def findJumpdests (code : List Nat) : List Nat := findJumpdestsAux code.length code 0

end EVM

namespace EVM

/-! ## Interpreter (frontier/vm/interpreter.py, homestead and shanghai
variants)

The Interpreter class instance is the triple (state, env, return_data);
state and return_data are mutated across frames of the same instance, so
they are threaded through execution.  HomesteadInterpreter inherits
execute and _execute_opcode unchanged from the Frontier class;
ShanghaiInterpreter overrides execute only to accept PUSH0.  A Fork tag
selects between the two dispatch loops. -/

/-- The Interpreter instance data shared by all frames of one invocation
chain: the world state, the block environment, and the
last-return-data buffer (self.return_data). -/
structure Interpreter where
  state : State
  env : Environment := {}
  return_data : List Nat := []
deriving DecidableEq, Repr

/-- The three fork variants. -/
inductive Fork where
  | frontier
  | homestead
  | shanghai
deriving DecidableEq, Repr

/-- Only the Shanghai dispatch loop accepts byte 0x5F as PUSH0; the
Frontier loop (inherited by Homestead) raises InvalidOpcodeError on it. -/
def Fork.acceptsPush0 : Fork → Bool
  | .shanghai => true
  | _ => false

/-- Class _OpcodeResult (without the never-set error and created_address
fields). -/
structure OpcodeResult where
  pc : Nat := 0
  gas_remaining : Int := 0
  done : Bool := false
  success : Bool := true
  return_data : List Nat := []
deriving DecidableEq, Repr

/-- The per-frame mutable trio threaded alongside an _OpcodeResult:
stack, memory and the log list. -/
structure Frame where
  stack : Stack
  mem : Memory
  logs : List Log
deriving DecidableEq, Repr

/-- Interpreter._charge_gas: OutOfGasError when the cost exceeds the
remaining gas. -/
def chargeGas (gas : Int) (cost : Nat) : Except EVMError Int :=
  if (cost : Int) > gas then .error .outOfGas else .ok (gas - cost)

/-- The ExecutionResult produced by the except-handlers of execute: the
frame fails, all of the frame gas counts as used, and the logs are
dropped (the handlers build ExecutionResult without a logs argument). -/
def errResult (frameGas : Int) (e : EVMError) : ExecutionResult :=
  { success := false, gas_used := frameGas, gas_remaining := 0, error := some e }

/-- Pop n values (top first), as the LOG topic loop does. -/
def popN : Stack → Nat → Except EVMError (List Nat × Stack)
  | s, 0 => .ok ([], s)
  | s, n + 1 => do
    let (x, s1) ← s.pop
    let (xs, s2) ← popN s1 n
    .ok (x :: xs, s2)

/-- Fast modular exponentiation; models Python pow(a, b, 2**256).  The
fuel bounds the squaring recursion and 257 covers all 256-bit exponents. -/
def powMod : Nat → Nat → Nat → Nat → Nat
  | 0, _, _, m => 1 % m
  | fuel + 1, a, b, m =>
    if b = 0 then 1 % m
    else
      let h := powMod fuel (a * a % m) (b / 2) m
      if b % 2 = 1 then h * a % m else h

/-- The four variants served by Interpreter._handle_call. -/
inductive CallType where
  | call
  | callcode
  | delegatecall
  | staticcall
deriving DecidableEq, Repr

/-- The argument pops of _handle_call (top first): gas hint and address,
then value for CALL/CALLCODE (DELEGATECALL inherits message.value,
STATICCALL uses 0), then the two memory ranges. -/
def callPops (ct : CallType) (msg : Message) (s : Stack) :
    Except EVMError (Nat × Nat × Nat × Nat × Nat × Nat × Nat × Stack) := do
  let (gasHint, s1) ← s.pop
  let (addr, s2) ← s1.pop
  match ct with
  | .call | .callcode => do
    let (v, s3) ← s2.pop
    let (ao, s4) ← s3.pop
    let (asz, s5) ← s4.pop
    let (ro, s6) ← s5.pop
    let (rsz, s7) ← s6.pop
    .ok (gasHint, addr, v, ao, asz, ro, rsz, s7)
  | .delegatecall => do
    let (ao, s3) ← s2.pop
    let (asz, s4) ← s3.pop
    let (ro, s5) ← s4.pop
    let (rsz, s6) ← s5.pop
    .ok (gasHint, addr, msg.value, ao, asz, ro, rsz, s6)
  | .staticcall => do
    let (ao, s3) ← s2.pop
    let (asz, s4) ← s3.pop
    let (ro, s5) ← s4.pop
    let (rsz, s6) ← s5.pop
    .ok (gasHint, addr, 0, ao, asz, ro, rsz, s6)

/-- Interpreter._handle_call, parameterised by the nested executor (the
recursive self.execute call).  Mutations performed before an exception
stay in the returned Interpreter, as they do in the source. -/
def handleCallStep
    (execNested : Interpreter → Message → Interpreter × ExecutionResult)
    (itp : Interpreter) (pc : Nat) (stack0 : Stack) (mem0 : Memory)
    (msg : Message) (gas0 : Int) (logs : List Log) (ct : CallType) :
    Interpreter × Except EVMError (OpcodeResult × Frame) :=
  match callPops ct msg stack0 with
  | .error e => (itp, .error e)
  | .ok (gasHint, address, value, args_offset, args_size, ret_offset, ret_size, s7) =>
    let mem_cost :=
      max (mem0.expansion_cost args_offset args_size) (mem0.expansion_cost ret_offset ret_size)
    let target_exists := itp.state.account_exists address
    let call_cost := GasSchedule.call_cost value target_exists
    match chargeGas gas0 (call_cost + mem_cost) with
    | .error e => (itp, .error e)
    | .ok gas1 =>
      if msg.is_static ∧ ct = .call ∧ value > 0 then (itp, .error .writeProtection)
      else if ct = .call ∧ value > 0 ∧ itp.state.get_balance msg.target < (value : Int) then
        -- insufficient balance: push 0 and continue without forwarding gas
        match s7.push 0 with
        | .error e => (itp, .error e)
        | .ok s8 => (itp, .ok ({ pc := pc + 1, gas_remaining := gas1 }, ⟨s8, mem0, logs⟩))
      else
        let gas_cap := gas1 - pydiv gas1 64
        let base_forward := min (gasHint : Int) gas_cap
        let gas_to_forward :=
          if ct = .call ∧ value > 0 then base_forward + (GasSchedule.G_CALLSTIPEND : Int)
          else base_forward
        let gas2 := gas1 - gas_to_forward
        let (call_data, mem1) := mem0.load args_offset args_size
        let code_to_execute := itp.state.get_code address
        let target_address :=
          match ct with
          | .call | .staticcall => address
          | _ => msg.target
        let caller :=
          match ct with
          | .delegatecall => msg.caller
          | _ => msg.target
        let itp1 :=
          if ct = .call ∧ value > 0 then
            let st1 := itp.state.set_balance msg.target (itp.state.get_balance msg.target - value)
            { itp with state := st1.set_balance address (st1.get_balance address + value) }
          else itp
        let call_message : Message :=
          { caller := caller
            target := target_address
            value := if ct = .call ∨ ct = .callcode then value else msg.value
            data := call_data
            gas := gas_to_forward
            depth := msg.depth + 1
            code := code_to_execute
            code_address := address
            is_static := msg.is_static || ct = .staticcall }
        let (itp2, result) := execNested itp1 call_message
        let itp3 := { itp2 with return_data := result.return_data }
        let gas3 := gas2 + result.gas_remaining
        let copy_size := min ret_size result.return_data.length
        let mem2 :=
          if copy_size > 0 then mem1.store ret_offset (result.return_data.take copy_size)
          else mem1
        match s7.push (if result.success then 1 else 0) with
        | .error e => (itp3, .error e)
        | .ok s8 => (itp3, .ok ({ pc := pc + 1, gas_remaining := gas3 }, ⟨s8, mem2, logs⟩))

end EVM

namespace EVM

/-- Continue to the next opcode: the ordinary (done = false) shape of an
_OpcodeResult together with the frame. -/
def contOp (pc : Nat) (gas : Int) (s : Stack) (m : Memory) (lg : List Log) :
    OpcodeResult × Frame :=
  ({ pc := pc, gas_remaining := gas }, ⟨s, m, lg⟩)

/-- Interpreter._execute_opcode, parameterised by the nested executor used
by the CALL and CREATE families.  The branch order follows the source;
bytes the source does not define fall through to the unknown-opcode
InvalidOpcodeError at the end, exactly as there. -/
def execOpcodeStep
    (execNested : Interpreter → Message → Interpreter × ExecutionResult)
    (itp : Interpreter) (opcode pc : Nat) (code : List Nat)
    (stack : Stack) (mem : Memory) (msg : Message) (gas : Int)
    (logs : List Log) (jd : List Nat) :
    Interpreter × Except EVMError (OpcodeResult × Frame) :=
  -- STOP
  if opcode = 0x00 then
    (itp, .ok ({ done := true, success := true, gas_remaining := gas }, ⟨stack, mem, logs⟩))
  -- ADD
  else if opcode = 0x01 then
    (itp, do
      let g ← chargeGas gas GasSchedule.G_VERYLOW
      let (a, s1) ← stack.pop
      let (b, s2) ← s1.pop
      let s3 ← s2.push ((a : Int) + b)
      .ok (contOp (pc + 1) g s3 mem logs))
  -- MUL
  else if opcode = 0x02 then
    (itp, do
      let g ← chargeGas gas GasSchedule.G_LOW
      let (a, s1) ← stack.pop
      let (b, s2) ← s1.pop
      let s3 ← s2.push ((a : Int) * b)
      .ok (contOp (pc + 1) g s3 mem logs))
  -- SUB
  else if opcode = 0x03 then
    (itp, do
      let g ← chargeGas gas GasSchedule.G_VERYLOW
      let (a, s1) ← stack.pop
      let (b, s2) ← s1.pop
      let s3 ← s2.push ((a : Int) - b)
      .ok (contOp (pc + 1) g s3 mem logs))
  -- DIV
  else if opcode = 0x04 then
    (itp, do
      let g ← chargeGas gas GasSchedule.G_LOW
      let (a, s1) ← stack.pop
      let (b, s2) ← s1.pop
      let s3 ← s2.push (if b ≠ 0 then (a / b : Nat) else 0)
      .ok (contOp (pc + 1) g s3 mem logs))
  -- SDIV
  else if opcode = 0x05 then
    (itp, do
      let g ← chargeGas gas GasSchedule.G_LOW
      let (a, s1) ← stack.pop
      let (b, s2) ← s1.pop
      let s3 ←
        if b = 0 then s2.push 0
        else
          let sa := unsigned_to_signed a
          let sb := unsigned_to_signed b
          -- special case -2^255 / -1 = -2^255 (overflow)
          if sa = -(2 ^ 255) ∧ sb = -1 then s2.push ((2 : Int) ^ 255)
          else
            let sign : Int := if (sa < 0) ≠ (sb < 0) then -1 else 1
            s2.push (signed_to_unsigned (sign * ((sa.natAbs / sb.natAbs : Nat) : Int)))
      .ok (contOp (pc + 1) g s3 mem logs))
  -- MOD
  else if opcode = 0x06 then
    (itp, do
      let g ← chargeGas gas GasSchedule.G_LOW
      let (a, s1) ← stack.pop
      let (b, s2) ← s1.pop
      let s3 ← s2.push (if b ≠ 0 then (a % b : Nat) else 0)
      .ok (contOp (pc + 1) g s3 mem logs))
  -- SMOD
  else if opcode = 0x07 then
    (itp, do
      let g ← chargeGas gas GasSchedule.G_LOW
      let (a, s1) ← stack.pop
      let (b, s2) ← s1.pop
      let s3 ←
        if b = 0 then s2.push 0
        else
          let sa := unsigned_to_signed a
          let sb := unsigned_to_signed b
          let sign : Int := if sa < 0 then -1 else 1
          s2.push (signed_to_unsigned (sign * ((sa.natAbs % sb.natAbs : Nat) : Int)))
      .ok (contOp (pc + 1) g s3 mem logs))
  -- ADDMOD
  else if opcode = 0x08 then
    (itp, do
      let g ← chargeGas gas GasSchedule.G_MID
      let (a, s1) ← stack.pop
      let (b, s2) ← s1.pop
      let (n, s3) ← s2.pop
      let s4 ← s3.push (if n ≠ 0 then ((a + b) % n : Nat) else 0)
      .ok (contOp (pc + 1) g s4 mem logs))
  -- MULMOD
  else if opcode = 0x09 then
    (itp, do
      let g ← chargeGas gas GasSchedule.G_MID
      let (a, s1) ← stack.pop
      let (b, s2) ← s1.pop
      let (n, s3) ← s2.pop
      let s4 ← s3.push (if n ≠ 0 then ((a * b) % n : Nat) else 0)
      .ok (contOp (pc + 1) g s4 mem logs))
  -- EXP (operands are popped before the cost is charged, as in the source)
  else if opcode = 0x0A then
    (itp, do
      let (a, s1) ← stack.pop
      let (b, s2) ← s1.pop
      let g ← chargeGas gas (GasSchedule.exp_cost b)
      let s3 ← s2.push (powMod 257 a b (2 ^ 256))
      .ok (contOp (pc + 1) g s3 mem logs))
  -- SIGNEXTEND
  else if opcode = 0x0B then
    (itp, do
      let g ← chargeGas gas GasSchedule.G_LOW
      let (b, s1) ← stack.pop
      let (x, s2) ← s1.pop
      let s3 ←
        if b < 31 then
          let sign_bit := 1 <<< (8 * b + 7)
          let mask := (1 <<< (8 * (b + 1))) - 1
          if x &&& sign_bit ≠ 0 then s2.push (x ||| (MAX_U256 ^^^ mask))
          else s2.push (x &&& mask)
        else s2.push x
      .ok (contOp (pc + 1) g s3 mem logs))
  -- LT
  else if opcode = 0x10 then
    (itp, do
      let g ← chargeGas gas GasSchedule.G_VERYLOW
      let (a, s1) ← stack.pop
      let (b, s2) ← s1.pop
      let s3 ← s2.push (if a < b then 1 else 0)
      .ok (contOp (pc + 1) g s3 mem logs))
  -- GT
  else if opcode = 0x11 then
    (itp, do
      let g ← chargeGas gas GasSchedule.G_VERYLOW
      let (a, s1) ← stack.pop
      let (b, s2) ← s1.pop
      let s3 ← s2.push (if a > b then 1 else 0)
      .ok (contOp (pc + 1) g s3 mem logs))
  -- SLT
  else if opcode = 0x12 then
    (itp, do
      let g ← chargeGas gas GasSchedule.G_VERYLOW
      let (a, s1) ← stack.pop
      let (b, s2) ← s1.pop
      let s3 ← s2.push (if unsigned_to_signed a < unsigned_to_signed b then 1 else 0)
      .ok (contOp (pc + 1) g s3 mem logs))
  -- SGT
  else if opcode = 0x13 then
    (itp, do
      let g ← chargeGas gas GasSchedule.G_VERYLOW
      let (a, s1) ← stack.pop
      let (b, s2) ← s1.pop
      let s3 ← s2.push (if unsigned_to_signed a > unsigned_to_signed b then 1 else 0)
      .ok (contOp (pc + 1) g s3 mem logs))
  -- EQ
  else if opcode = 0x14 then
    (itp, do
      let g ← chargeGas gas GasSchedule.G_VERYLOW
      let (a, s1) ← stack.pop
      let (b, s2) ← s1.pop
      let s3 ← s2.push (if a = b then 1 else 0)
      .ok (contOp (pc + 1) g s3 mem logs))
  -- ISZERO
  else if opcode = 0x15 then
    (itp, do
      let g ← chargeGas gas GasSchedule.G_VERYLOW
      let (a, s1) ← stack.pop
      let s2 ← s1.push (if a = 0 then 1 else 0)
      .ok (contOp (pc + 1) g s2 mem logs))
  -- AND
  else if opcode = 0x16 then
    (itp, do
      let g ← chargeGas gas GasSchedule.G_VERYLOW
      let (a, s1) ← stack.pop
      let (b, s2) ← s1.pop
      let s3 ← s2.push ((a &&& b : Nat))
      .ok (contOp (pc + 1) g s3 mem logs))
  -- OR
  else if opcode = 0x17 then
    (itp, do
      let g ← chargeGas gas GasSchedule.G_VERYLOW
      let (a, s1) ← stack.pop
      let (b, s2) ← s1.pop
      let s3 ← s2.push ((a ||| b : Nat))
      .ok (contOp (pc + 1) g s3 mem logs))
  -- XOR
  else if opcode = 0x18 then
    (itp, do
      let g ← chargeGas gas GasSchedule.G_VERYLOW
      let (a, s1) ← stack.pop
      let (b, s2) ← s1.pop
      let s3 ← s2.push ((a ^^^ b : Nat))
      .ok (contOp (pc + 1) g s3 mem logs))
  -- NOT
  else if opcode = 0x19 then
    (itp, do
      let g ← chargeGas gas GasSchedule.G_VERYLOW
      let (a, s1) ← stack.pop
      let s2 ← s1.push ((MAX_U256 ^^^ a : Nat))
      .ok (contOp (pc + 1) g s2 mem logs))
  -- BYTE
  else if opcode = 0x1A then
    (itp, do
      let g ← chargeGas gas GasSchedule.G_VERYLOW
      let (i, s1) ← stack.pop
      let (x, s2) ← s1.pop
      let s3 ← if i ≥ 32 then s2.push 0 else s2.push ((x >>> (8 * (31 - i))) &&& 0xFF : Nat)
      .ok (contOp (pc + 1) g s3 mem logs))
  -- SHL
  else if opcode = 0x1B then
    (itp, do
      let g ← chargeGas gas GasSchedule.G_VERYLOW
      let (shift, s1) ← stack.pop
      let (value, s2) ← s1.pop
      let s3 ← if shift ≥ 256 then s2.push 0 else s2.push ((value <<< shift : Nat))
      .ok (contOp (pc + 1) g s3 mem logs))
  -- SHR
  else if opcode = 0x1C then
    (itp, do
      let g ← chargeGas gas GasSchedule.G_VERYLOW
      let (shift, s1) ← stack.pop
      let (value, s2) ← s1.pop
      let s3 ← if shift ≥ 256 then s2.push 0 else s2.push ((value >>> shift : Nat))
      .ok (contOp (pc + 1) g s3 mem logs))
  -- SAR (Python >> on a signed int is floor division by 2^shift)
  else if opcode = 0x1D then
    (itp, do
      let g ← chargeGas gas GasSchedule.G_VERYLOW
      let (shift, s1) ← stack.pop
      let (value, s2) ← s1.pop
      let sv := unsigned_to_signed value
      let s3 ←
        if shift ≥ 256 then s2.push (if sv < 0 then (MAX_U256 : Int) else 0)
        else s2.push (signed_to_unsigned (pydiv sv ((2 : Int) ^ shift)))
      .ok (contOp (pc + 1) g s3 mem logs))
  -- SHA3 (the source hashes with hashlib.sha3_256)
  else if opcode = 0x20 then
    (itp, do
      let (offset, s1) ← stack.pop
      let (size, s2) ← s1.pop
      let mem_cost := mem.expansion_cost offset size
      let g ← chargeGas gas (GasSchedule.sha3_cost size + mem_cost)
      let (data, mem1) := mem.load offset size
      let s3 ← s2.push (beBytesToNat (sha3_256 data))
      .ok (contOp (pc + 1) g s3 mem1 logs))
  -- ADDRESS
  else if opcode = 0x30 then
    (itp, do
      let g ← chargeGas gas GasSchedule.G_BASE
      let s1 ← stack.push msg.target
      .ok (contOp (pc + 1) g s1 mem logs))
  -- BALANCE
  else if opcode = 0x31 then
    (itp, do
      let g ← chargeGas gas GasSchedule.G_BALANCE
      let (addr, s1) ← stack.pop
      let s2 ← s1.push (itp.state.get_balance addr)
      .ok (contOp (pc + 1) g s2 mem logs))
  -- ORIGIN
  else if opcode = 0x32 then
    (itp, do
      let g ← chargeGas gas GasSchedule.G_BASE
      let s1 ← stack.push itp.env.origin
      .ok (contOp (pc + 1) g s1 mem logs))
  -- CALLER
  else if opcode = 0x33 then
    (itp, do
      let g ← chargeGas gas GasSchedule.G_BASE
      let s1 ← stack.push msg.caller
      .ok (contOp (pc + 1) g s1 mem logs))
  -- CALLVALUE
  else if opcode = 0x34 then
    (itp, do
      let g ← chargeGas gas GasSchedule.G_BASE
      let s1 ← stack.push msg.value
      .ok (contOp (pc + 1) g s1 mem logs))
  -- CALLDATALOAD (32 bytes from calldata, zero-padded)
  else if opcode = 0x35 then
    (itp, do
      let g ← chargeGas gas GasSchedule.G_VERYLOW
      let (offset, s1) ← stack.pop
      let value := (List.range 32).foldl (fun v i => v * 256 + msg.data.getD (offset + i) 0) 0
      let s2 ← s1.push value
      .ok (contOp (pc + 1) g s2 mem logs))
  -- CALLDATASIZE
  else if opcode = 0x36 then
    (itp, do
      let g ← chargeGas gas GasSchedule.G_BASE
      let s1 ← stack.push msg.data.length
      .ok (contOp (pc + 1) g s1 mem logs))
  -- CALLDATACOPY
  else if opcode = 0x37 then
    (itp, do
      let (dest_offset, s1) ← stack.pop
      let (src_offset, s2) ← s1.pop
      let (size, s3) ← s2.pop
      let mem_cost := mem.expansion_cost dest_offset size
      let g ← chargeGas gas (GasSchedule.G_VERYLOW + mem_cost + GasSchedule.copy_cost size)
      let copy_data := (List.range size).map (fun i => msg.data.getD (src_offset + i) 0)
      .ok (contOp (pc + 1) g s3 (mem.store dest_offset copy_data) logs))
  -- CODESIZE
  else if opcode = 0x38 then
    (itp, do
      let g ← chargeGas gas GasSchedule.G_BASE
      let s1 ← stack.push code.length
      .ok (contOp (pc + 1) g s1 mem logs))
  -- CODECOPY
  else if opcode = 0x39 then
    (itp, do
      let (dest_offset, s1) ← stack.pop
      let (src_offset, s2) ← s1.pop
      let (size, s3) ← s2.pop
      let mem_cost := mem.expansion_cost dest_offset size
      let g ← chargeGas gas (GasSchedule.G_VERYLOW + mem_cost + GasSchedule.copy_cost size)
      let copy_data := (List.range size).map (fun i => code.getD (src_offset + i) 0)
      .ok (contOp (pc + 1) g s3 (mem.store dest_offset copy_data) logs))
  -- GASPRICE
  else if opcode = 0x3A then
    (itp, do
      let g ← chargeGas gas GasSchedule.G_BASE
      let s1 ← stack.push itp.env.gas_price
      .ok (contOp (pc + 1) g s1 mem logs))
  -- EXTCODESIZE
  else if opcode = 0x3B then
    (itp, do
      let g ← chargeGas gas GasSchedule.G_EXTCODESIZE
      let (addr, s1) ← stack.pop
      let s2 ← s1.push (itp.state.get_code addr).length
      .ok (contOp (pc + 1) g s2 mem logs))
  -- EXTCODECOPY
  else if opcode = 0x3C then
    (itp, do
      let (addr, s1) ← stack.pop
      let (dest_offset, s2) ← s1.pop
      let (src_offset, s3) ← s2.pop
      let (size, s4) ← s3.pop
      let mem_cost := mem.expansion_cost dest_offset size
      let g ← chargeGas gas (GasSchedule.G_EXTCODECOPY + mem_cost + GasSchedule.copy_cost size)
      let ext_code := itp.state.get_code addr
      let copy_data := (List.range size).map (fun i => ext_code.getD (src_offset + i) 0)
      .ok (contOp (pc + 1) g s4 (mem.store dest_offset copy_data) logs))
  -- RETURNDATASIZE
  else if opcode = 0x3D then
    (itp, do
      let g ← chargeGas gas GasSchedule.G_BASE
      let s1 ← stack.push itp.return_data.length
      .ok (contOp (pc + 1) g s1 mem logs))
  -- RETURNDATACOPY (bounds check before the gas charge, as in the source)
  else if opcode = 0x3E then
    (itp, do
      let (dest_offset, s1) ← stack.pop
      let (src_offset, s2) ← s1.pop
      let (size, s3) ← s2.pop
      if src_offset + size > itp.return_data.length then .error .returnDataOutOfBounds
      else
        let mem_cost := mem.expansion_cost dest_offset size
        let g ← chargeGas gas (GasSchedule.G_VERYLOW + mem_cost + GasSchedule.copy_cost size)
        let slice := (itp.return_data.drop src_offset).take size
        .ok (contOp (pc + 1) g s3 (mem.store dest_offset slice) logs))
  -- EXTCODEHASH (charged like BALANCE; hashes with hashlib.sha3_256)
  else if opcode = 0x3F then
    (itp, do
      let g ← chargeGas gas GasSchedule.G_BALANCE
      let (addr, s1) ← stack.pop
      let s2 ←
        if !(itp.state.account_exists addr) then s1.push 0
        else
          let c := itp.state.get_code addr
          if c ≠ [] then s1.push (beBytesToNat (sha3_256 c))
          else s1.push (beBytesToNat (sha3_256 []))
      .ok (contOp (pc + 1) g s2 mem logs))
  -- BLOCKHASH
  else if opcode = 0x40 then
    (itp, do
      let g ← chargeGas gas GasSchedule.G_BLOCKHASH
      let (block_num, s1) ← stack.pop
      let s2 ←
        if block_num ≥ itp.env.number ∨ itp.env.number - block_num > 256 then s1.push 0
        else s1.push ((itp.env.block_hashes.lookup block_num).getD 0)
      .ok (contOp (pc + 1) g s2 mem logs))
  -- COINBASE
  else if opcode = 0x41 then
    (itp, do
      let g ← chargeGas gas GasSchedule.G_BASE
      let s1 ← stack.push itp.env.coinbase
      .ok (contOp (pc + 1) g s1 mem logs))
  -- TIMESTAMP
  else if opcode = 0x42 then
    (itp, do
      let g ← chargeGas gas GasSchedule.G_BASE
      let s1 ← stack.push itp.env.timestamp
      .ok (contOp (pc + 1) g s1 mem logs))
  -- NUMBER
  else if opcode = 0x43 then
    (itp, do
      let g ← chargeGas gas GasSchedule.G_BASE
      let s1 ← stack.push itp.env.number
      .ok (contOp (pc + 1) g s1 mem logs))
  -- DIFFICULTY
  else if opcode = 0x44 then
    (itp, do
      let g ← chargeGas gas GasSchedule.G_BASE
      let s1 ← stack.push itp.env.difficulty
      .ok (contOp (pc + 1) g s1 mem logs))
  -- GASLIMIT
  else if opcode = 0x45 then
    (itp, do
      let g ← chargeGas gas GasSchedule.G_BASE
      let s1 ← stack.push itp.env.gas_limit
      .ok (contOp (pc + 1) g s1 mem logs))
  -- CHAINID
  else if opcode = 0x46 then
    (itp, do
      let g ← chargeGas gas GasSchedule.G_BASE
      let s1 ← stack.push itp.env.chain_id
      .ok (contOp (pc + 1) g s1 mem logs))
  -- SELFBALANCE
  else if opcode = 0x47 then
    (itp, do
      let g ← chargeGas gas GasSchedule.G_LOW
      let s1 ← stack.push (itp.state.get_balance msg.target)
      .ok (contOp (pc + 1) g s1 mem logs))
  -- BASEFEE
  else if opcode = 0x48 then
    (itp, do
      let g ← chargeGas gas GasSchedule.G_BASE
      let s1 ← stack.push itp.env.base_fee
      .ok (contOp (pc + 1) g s1 mem logs))
  -- POP
  else if opcode = 0x50 then
    (itp, do
      let g ← chargeGas gas GasSchedule.G_BASE
      let (_, s1) ← stack.pop
      .ok (contOp (pc + 1) g s1 mem logs))
  -- MLOAD
  else if opcode = 0x51 then
    (itp, do
      let (offset, s1) ← stack.pop
      let mem_cost := mem.expansion_cost offset 32
      let g ← chargeGas gas (GasSchedule.G_VERYLOW + mem_cost)
      let (value, mem1) := mem.load_word offset
      let s2 ← s1.push value
      .ok (contOp (pc + 1) g s2 mem1 logs))
  -- MSTORE
  else if opcode = 0x52 then
    (itp, do
      let (offset, s1) ← stack.pop
      let (value, s2) ← s1.pop
      let mem_cost := mem.expansion_cost offset 32
      let g ← chargeGas gas (GasSchedule.G_VERYLOW + mem_cost)
      .ok (contOp (pc + 1) g s2 (mem.store_word offset value) logs))
  -- MSTORE8
  else if opcode = 0x53 then
    (itp, do
      let (offset, s1) ← stack.pop
      let (value, s2) ← s1.pop
      let mem_cost := mem.expansion_cost offset 1
      let g ← chargeGas gas (GasSchedule.G_VERYLOW + mem_cost)
      .ok (contOp (pc + 1) g s2 (mem.store_byte offset value) logs))
  -- SLOAD
  else if opcode = 0x54 then
    (itp, do
      let g ← chargeGas gas GasSchedule.G_SLOAD
      let (key, s1) ← stack.pop
      let s2 ← s1.push (itp.state.get_storage msg.target key)
      .ok (contOp (pc + 1) g s2 mem logs))
  -- SSTORE (write-protection before any pop, as in the source)
  else if opcode = 0x55 then
    if msg.is_static then (itp, .error .writeProtection)
    else
      match stack.pop with
      | .error e => (itp, .error e)
      | .ok (key, s1) =>
        match s1.pop with
        | .error e => (itp, .error e)
        | .ok (value, s2) =>
          let current := itp.state.get_storage msg.target key
          match chargeGas gas (GasSchedule.sstore_cost current value) with
          | .error e => (itp, .error e)
          | .ok g =>
            ({ itp with state := itp.state.set_storage msg.target key value },
              .ok (contOp (pc + 1) g s2 mem logs))
  -- JUMP
  else if opcode = 0x56 then
    (itp, do
      let g ← chargeGas gas GasSchedule.G_MID
      let (dest, s1) ← stack.pop
      if !(jd.contains dest) then .error .invalidJump
      else .ok (contOp dest g s1 mem logs))
  -- JUMPI
  else if opcode = 0x57 then
    (itp, do
      let g ← chargeGas gas GasSchedule.G_HIGH
      let (dest, s1) ← stack.pop
      let (cond, s2) ← s1.pop
      if cond ≠ 0 then
        if !(jd.contains dest) then .error .invalidJump
        else .ok (contOp dest g s2 mem logs)
      else .ok (contOp (pc + 1) g s2 mem logs))
  -- PC
  else if opcode = 0x58 then
    (itp, do
      let g ← chargeGas gas GasSchedule.G_BASE
      let s1 ← stack.push pc
      .ok (contOp (pc + 1) g s1 mem logs))
  -- MSIZE
  else if opcode = 0x59 then
    (itp, do
      let g ← chargeGas gas GasSchedule.G_BASE
      let s1 ← stack.push mem.msize
      .ok (contOp (pc + 1) g s1 mem logs))
  -- GAS (pushes the gas remaining after its own charge)
  else if opcode = 0x5A then
    (itp, do
      let g ← chargeGas gas GasSchedule.G_BASE
      let s1 ← stack.push g
      .ok (contOp (pc + 1) g s1 mem logs))
  -- JUMPDEST
  else if opcode = 0x5B then
    (itp, do
      let g ← chargeGas gas GasSchedule.G_JUMPDEST
      .ok (contOp (pc + 1) g stack mem logs))
  -- PUSH1 .. PUSH32
  else if 0x60 ≤ opcode ∧ opcode ≤ 0x7F then
    (itp, do
      let g ← chargeGas gas GasSchedule.G_VERYLOW
      let push_size := opcode - 0x5F
      let raw := (code.drop (pc + 1)).take push_size
      let push_data := raw ++ List.replicate (push_size - raw.length) 0
      let s1 ← stack.push (beBytesToNat push_data)
      .ok (contOp (pc + 1 + push_size) g s1 mem logs))
  -- DUP1 .. DUP16
  else if 0x80 ≤ opcode ∧ opcode ≤ 0x8F then
    (itp, do
      let g ← chargeGas gas GasSchedule.G_VERYLOW
      let s1 ← stack.dup (opcode - 0x7F)
      .ok (contOp (pc + 1) g s1 mem logs))
  -- SWAP1 .. SWAP16
  else if 0x90 ≤ opcode ∧ opcode ≤ 0x9F then
    (itp, do
      let g ← chargeGas gas GasSchedule.G_VERYLOW
      let s1 ← stack.swap (opcode - 0x8F)
      .ok (contOp (pc + 1) g s1 mem logs))
  -- LOG0 .. LOG4 (topics are serialised as 32-byte words in the source;
  -- here each topic is carried as its 256-bit value)
  else if 0xA0 ≤ opcode ∧ opcode ≤ 0xA4 then
    if msg.is_static then (itp, .error .writeProtection)
    else
      (itp, do
        let num_topics := opcode - 0xA0
        let (offset, s1) ← stack.pop
        let (size, s2) ← s1.pop
        let (topics, s3) ← popN s2 num_topics
        let mem_cost := mem.expansion_cost offset size
        let g ← chargeGas gas (mem_cost + GasSchedule.log_cost size num_topics)
        let (data, mem1) := mem.load offset size
        .ok (contOp (pc + 1) g s3 mem1
          (logs ++ [{ address := msg.target, topics := topics, data := data }])))
  -- CREATE
  else if opcode = 0xF0 then
    if msg.is_static then (itp, .error .writeProtection)
    else
      match popN stack 3 with
      | .error e => (itp, .error e)
      | .ok (vals, s3) =>
        let value := vals.getD 0 0
        let offset := vals.getD 1 0
        let size := vals.getD 2 0
        let mem_cost := mem.expansion_cost offset size
        match chargeGas gas (GasSchedule.G_CREATE + mem_cost) with
        | .error e => (itp, .error e)
        | .ok gas1 =>
          if itp.state.get_balance msg.target < (value : Int) then
            match s3.push 0 with
            | .error e => (itp, .error e)
            | .ok s4 => (itp, .ok (contOp (pc + 1) gas1 s4 mem logs))
          else
            let (init_code, mem1) := mem.load offset size
            let sender_nonce := (itp.state.get_account msg.target).nonce
            let new_address := create_address msg.target sender_nonce
            let st1 := itp.state.increment_nonce msg.target
            let st2 := st1.set_balance msg.target (st1.get_balance msg.target - value)
            let st3 := st2.set_balance new_address (st2.get_balance new_address + value)
            let create_gas := gas1 - pydiv gas1 64
            let gas2 := gas1 - create_gas
            let create_message : Message :=
              { caller := msg.target, target := new_address, value := value, data := []
                gas := create_gas, depth := msg.depth + 1, code := init_code
                is_create := true }
            let (itp2, result) := execNested { itp with state := st3 } create_message
            let itp3 := { itp2 with return_data := result.return_data }
            if result.success then
              let deploy_gas := result.return_data.length * GasSchedule.G_CODEDEPOSIT
              if result.gas_remaining ≥ (deploy_gas : Int) then
                let itp4 := { itp3 with state := itp3.state.set_code new_address result.return_data }
                match s3.push new_address with
                | .error e => (itp4, .error e)
                | .ok s4 =>
                  (itp4, .ok (contOp (pc + 1) (gas2 + result.gas_remaining - deploy_gas) s4 mem1 logs))
              else
                match s3.push 0 with
                | .error e => (itp3, .error e)
                | .ok s4 => (itp3, .ok (contOp (pc + 1) (gas2 + result.gas_remaining) s4 mem1 logs))
            else
              match s3.push 0 with
              | .error e => (itp3, .error e)
              | .ok s4 => (itp3, .ok (contOp (pc + 1) (gas2 + result.gas_remaining) s4 mem1 logs))
  -- CALL
  else if opcode = 0xF1 then
    handleCallStep execNested itp pc stack mem msg gas logs .call
  -- CALLCODE
  else if opcode = 0xF2 then
    handleCallStep execNested itp pc stack mem msg gas logs .callcode
  -- RETURN
  else if opcode = 0xF3 then
    (itp, do
      let (offset, s1) ← stack.pop
      let (size, s2) ← s1.pop
      let mem_cost := mem.expansion_cost offset size
      let g ← chargeGas gas mem_cost
      let (return_data, mem1) := mem.load offset size
      .ok (({ done := true, success := true, gas_remaining := g, return_data := return_data } :
        OpcodeResult), (⟨s2, mem1, logs⟩ : Frame)))
  -- DELEGATECALL
  else if opcode = 0xF4 then
    handleCallStep execNested itp pc stack mem msg gas logs .delegatecall
  -- CREATE2
  else if opcode = 0xF5 then
    if msg.is_static then (itp, .error .writeProtection)
    else
      match popN stack 4 with
      | .error e => (itp, .error e)
      | .ok (vals, s4) =>
        let value := vals.getD 0 0
        let offset := vals.getD 1 0
        let size := vals.getD 2 0
        let salt := vals.getD 3 0
        let mem_cost := mem.expansion_cost offset size
        match chargeGas gas (GasSchedule.G_CREATE + mem_cost + GasSchedule.copy_cost size) with
        | .error e => (itp, .error e)
        | .ok gas1 =>
          if itp.state.get_balance msg.target < (value : Int) then
            match s4.push 0 with
            | .error e => (itp, .error e)
            | .ok s5 => (itp, .ok (contOp (pc + 1) gas1 s5 mem logs))
          else
            let (init_code, mem1) := mem.load offset size
            let new_address :=
              create2_address msg.target (natToBEPad salt 32) (sha3_256 init_code)
            let st1 := itp.state.increment_nonce msg.target
            let st2 := st1.set_balance msg.target (st1.get_balance msg.target - value)
            let st3 := st2.set_balance new_address (st2.get_balance new_address + value)
            let create_gas := gas1 - pydiv gas1 64
            let gas2 := gas1 - create_gas
            let create_message : Message :=
              { caller := msg.target, target := new_address, value := value, data := []
                gas := create_gas, depth := msg.depth + 1, code := init_code
                is_create := true }
            let (itp2, result) := execNested { itp with state := st3 } create_message
            let itp3 := { itp2 with return_data := result.return_data }
            if result.success then
              let deploy_gas := result.return_data.length * GasSchedule.G_CODEDEPOSIT
              if result.gas_remaining ≥ (deploy_gas : Int) then
                let itp4 := { itp3 with state := itp3.state.set_code new_address result.return_data }
                match s4.push new_address with
                | .error e => (itp4, .error e)
                | .ok s5 =>
                  (itp4, .ok (contOp (pc + 1) (gas2 + result.gas_remaining - deploy_gas) s5 mem1 logs))
              else
                match s4.push 0 with
                | .error e => (itp3, .error e)
                | .ok s5 => (itp3, .ok (contOp (pc + 1) (gas2 + result.gas_remaining) s5 mem1 logs))
            else
              match s4.push 0 with
              | .error e => (itp3, .error e)
              | .ok s5 => (itp3, .ok (contOp (pc + 1) (gas2 + result.gas_remaining) s5 mem1 logs))
  -- STATICCALL
  else if opcode = 0xFA then
    handleCallStep execNested itp pc stack mem msg gas logs .staticcall
  -- REVERT
  else if opcode = 0xFD then
    (itp, do
      let (offset, s1) ← stack.pop
      let (size, s2) ← s1.pop
      let mem_cost := mem.expansion_cost offset size
      let g ← chargeGas gas mem_cost
      let (return_data, mem1) := mem.load offset size
      .ok (({ done := true, success := false, gas_remaining := g, return_data := return_data } :
        OpcodeResult), (⟨s2, mem1, logs⟩ : Frame)))
  -- INVALID
  else if opcode = 0xFE then (itp, .error .invalidOpcode)
  -- SELFDESTRUCT
  else if opcode = 0xFF then
    if msg.is_static then (itp, .error .writeProtection)
    else
      match chargeGas gas GasSchedule.G_SELFDESTRUCT with
      | .error e => (itp, .error e)
      | .ok g =>
        match stack.pop with
        | .error e => (itp, .error e)
        | .ok (recipient, s1) =>
          let balance := itp.state.get_balance msg.target
          let st1 := itp.state.set_balance recipient (itp.state.get_balance recipient + balance)
          let st2 := st1.set_balance msg.target 0
          let st3 := st2.set_account msg.target {}
          ({ itp with state := st3 },
            .ok (({ done := true, success := true, gas_remaining := g } : OpcodeResult),
              (⟨s1, mem, logs⟩ : Frame)))
  -- unknown opcode
  else (itp, .error .invalidOpcode)

end EVM

namespace EVM

/-- The dispatch loop of Interpreter.execute (lines 118-209 of the
Frontier source, lines 83-176 of the Shanghai source), with the
exception handlers inlined as the error branches.  The fuel bounds both
loop iterations and nested-call depth; the lambda passed to
execOpcodeStep is the recursive self.execute call of the source (depth
check, then a fresh frame on the shared Interpreter instance). -/
def execLoop : Nat → Fork → Interpreter → Message → Nat → Int → Stack → Memory →
    List Log → List Nat → Interpreter × ExecutionResult
  | 0, _, itp, _, _, _, _, _, _, _ =>
    (itp, { success := false, error := some .fuelExhausted })
  | fuel + 1, fork, itp, msg, pc, gas, stack, mem, logs, jd =>
    if pc < msg.code.length then
      let opcode := msg.code.getD pc 0
      if opcode = 0x5F then
        if fork.acceptsPush0 then
          -- shanghai/vm/interpreter.py lines 88-92: charge G_PUSH0, push 0
          match chargeGas gas GasSchedule.G_PUSH0 with
          | .error e => (itp, errResult msg.gas e)
          | .ok g1 =>
            match stack.push 0 with
            | .error e => (itp, errResult msg.gas e)
            | .ok s1 => execLoop fuel fork itp msg (pc + 1) g1 s1 mem logs jd
        else
          -- frontier/vm/interpreter.py lines 122-124: PUSH0 not supported
          (itp, errResult msg.gas .invalidOpcode)
      else
        match execOpcodeStep
            (fun itp2 msg2 =>
              if msg2.depth > 1024 then (itp2, errResult msg2.gas .callDepth)
              else
                execLoop fuel fork itp2 msg2 0 msg2.gas (⟨[]⟩ : Stack) (⟨[]⟩ : Memory) []
                  (findJumpdests msg2.code))
            itp opcode pc msg.code stack mem msg gas logs jd with
        | (itp1, .error e) => (itp1, errResult msg.gas e)
        | (itp1, .ok (res, fr)) =>
          if res.done then
            (itp1,
              { success := res.success
                gas_used := msg.gas - res.gas_remaining
                gas_remaining := res.gas_remaining
                return_data := res.return_data
                logs := fr.logs })
          else execLoop fuel fork itp1 msg res.pc res.gas_remaining fr.stack fr.mem fr.logs jd
    else
      -- ran off the end of the code: successful termination
      (itp, { success := true, gas_used := msg.gas - gas, gas_remaining := gas, logs := logs })

/-- Interpreter.execute (Frontier, inherited unchanged by Homestead) and
ShanghaiInterpreter.execute, selected by the fork tag: the call-depth
prelude, then the dispatch loop on a fresh stack, memory, log list and
jump-destination set. -/
def execute (fuel : Nat) (fork : Fork) (itp : Interpreter) (msg : Message) :
    Interpreter × ExecutionResult :=
  if msg.depth > 1024 then (itp, errResult msg.gas .callDepth)
  else execLoop fuel fork itp msg 0 msg.gas (⟨[]⟩ : Stack) (⟨[]⟩ : Memory) [] (findJumpdests msg.code)

/-! ## State-transition drivers (frontier/fork.py and shanghai/fork.py) -/

/-- validate_transaction from frontier/fork.py; the returned tag stands
for the error string, none for a valid transaction. -/
def validate_transaction (tx : Transaction) (state : State) : Option EVMError :=
  let sender_account := state.get_account tx.sender
  if sender_account.nonce ≠ tx.nonce then some .txInvalidNonce
  else
    let is_create := tx.«to» = none
    let intrinsic_gas := GasSchedule.transaction_intrinsic_gas tx.data is_create
    if tx.gas < (intrinsic_gas : Int) then some .txIntrinsicGas
    else
      let required := tx.gas * tx.gas_price + (tx.value : Int)
      if sender_account.balance < required then some .txInsufficientFunds
      else none

/-- validate_transaction from shanghai/fork.py: the frontier checks plus
the EIP-3860 initcode size limit.  The intrinsic-gas check uses only the
base intrinsic gas; the initcode word cost is added later, inside
state_transition. -/
def validate_transaction_shanghai (tx : Transaction) (state : State) : Option EVMError :=
  let sender_account := state.get_account tx.sender
  if sender_account.nonce ≠ tx.nonce then some .txInvalidNonce
  else
    let is_create := tx.«to» = none
    let intrinsic_gas := GasSchedule.transaction_intrinsic_gas tx.data is_create
    if tx.gas < (intrinsic_gas : Int) then some .txIntrinsicGas
    else
      let required := tx.gas * tx.gas_price + (tx.value : Int)
      if sender_account.balance < required then some .txInsufficientFunds
      else if is_create ∧ tx.data.length > 49152 then some .txInitcodeTooLarge
      else none

/-- The tx-scoped environment built by both drivers: the block fields of
env with caller/origin set to the sender and the gas price of the
transaction. -/
def txEnvironment (tx : Transaction) (env : Environment) : Environment :=
  { caller := tx.sender
    origin := tx.sender
    block_hashes := env.block_hashes
    coinbase := env.coinbase
    number := env.number
    gas_limit := env.gas_limit
    gas_price := tx.gas_price
    timestamp := env.timestamp
    difficulty := env.difficulty
    chain_id := env.chain_id
    base_fee := env.base_fee }

end EVM

namespace EVM

/-- state_transition from frontier/fork.py: copy the state, validate,
debit the upfront gas cost, bump the nonce, run the creation or call under
the Frontier interpreter, then settle refund and coinbase payment. -/
def state_transition (fuel : Nat) (state0 : State) (tx : Transaction) (env : Environment) :
    State × ExecutionResult :=
  let state := state0.copy
  match validate_transaction tx state with
  | some e => (state, { success := false, error := some e, gas_used := 0 })
  | none =>
    let sender_account := state.get_account tx.sender
    let upfront_cost := tx.gas * tx.gas_price
    let stateA := state.set_balance tx.sender (sender_account.balance - upfront_cost)
    let stateB := stateA.increment_nonce tx.sender
    let is_create := tx.«to» = none
    let intrinsic_gas := GasSchedule.transaction_intrinsic_gas tx.data is_create
    let gas_remaining := tx.gas - (intrinsic_gas : Int)
    let tx_env := txEnvironment tx env
    let (state2, result) : State × ExecutionResult :=
      match tx.«to» with
      | none =>
        -- contract creation
        let contract_address := create_address tx.sender sender_account.nonce
        let stateC :=
          if tx.value > 0 then
            let s1 := stateB.set_balance tx.sender (stateB.get_balance tx.sender - tx.value)
            s1.set_balance contract_address (s1.get_balance contract_address + tx.value)
          else stateB
        let message : Message :=
          { caller := tx.sender, target := contract_address, value := tx.value, data := []
            gas := gas_remaining, depth := 0, code := tx.data, is_create := true }
        let (itpOut, result0) := execute fuel .frontier ⟨stateC, tx_env, []⟩ message
        if result0.success then
          let deploy_gas := result0.return_data.length * GasSchedule.G_CODEDEPOSIT
          if result0.gas_remaining ≥ (deploy_gas : Int) then
            (itpOut.state.set_code contract_address result0.return_data,
              { success := true
                gas_used := tx.gas - result0.gas_remaining + deploy_gas
                gas_remaining := result0.gas_remaining - deploy_gas
                return_data := result0.return_data
                logs := result0.logs
                created_address := some contract_address })
          else
            (itpOut.state,
              { success := false, gas_used := tx.gas, gas_remaining := 0
                error := some .codeDeployGas })
        else (itpOut.state, result0)
      | some t =>
        -- message call (tx.to or ZERO_ADDRESS)
        let code := stateB.get_code t
        let stateC :=
          if tx.value > 0 then
            let s1 := stateB.set_balance tx.sender (stateB.get_balance tx.sender - tx.value)
            s1.set_balance t (s1.get_balance t + tx.value)
          else stateB
        let message : Message :=
          { caller := tx.sender, target := t, value := tx.value, data := tx.data
            gas := gas_remaining, depth := 0, code := code }
        let (itpOut, result0) := execute fuel .frontier ⟨stateC, tx_env, []⟩ message
        (itpOut.state, result0)
    let total_gas_used := if result.success then (intrinsic_gas : Int) + result.gas_used else tx.gas
    let refund := (tx.gas - total_gas_used) * tx.gas_price
    let state3 := state2.set_balance tx.sender (state2.get_balance tx.sender + refund)
    let coinbase_reward := total_gas_used * tx.gas_price
    let state4 := state3.set_balance env.coinbase (state3.get_balance env.coinbase + coinbase_reward)
    (state4,
      { success := result.success
        gas_used := total_gas_used
        gas_remaining := tx.gas - total_gas_used
        return_data := result.return_data
        logs := if result.success then result.logs else []
        error := result.error
        created_address := if result.success then result.created_address else none })

/-- state_transition from shanghai/fork.py: as the Frontier driver, but
with the Shanghai validator and interpreter, the EIP-3860 initcode word
cost added to the intrinsic gas after validation, and the EIP-170 code
size limit on deployment. -/
def state_transition_shanghai (fuel : Nat) (state0 : State) (tx : Transaction)
    (env : Environment) : State × ExecutionResult :=
  let state := state0.copy
  match validate_transaction_shanghai tx state with
  | some e => (state, { success := false, error := some e, gas_used := 0 })
  | none =>
    let sender_account := state.get_account tx.sender
    let upfront_cost := tx.gas * tx.gas_price
    let stateA := state.set_balance tx.sender (sender_account.balance - upfront_cost)
    let stateB := stateA.increment_nonce tx.sender
    let is_create := tx.«to» = none
    let base_intrinsic := GasSchedule.transaction_intrinsic_gas tx.data is_create
    -- EIP-3860: initcode word cost (INITCODE_WORD_COST = 2)
    let intrinsic_gas :=
      if is_create then base_intrinsic + 2 * ((tx.data.length + 31) / 32) else base_intrinsic
    let gas_remaining := tx.gas - (intrinsic_gas : Int)
    let tx_env := txEnvironment tx env
    let (state2, result) : State × ExecutionResult :=
      match tx.«to» with
      | none =>
        let contract_address := create_address tx.sender sender_account.nonce
        let stateC :=
          if tx.value > 0 then
            let s1 := stateB.set_balance tx.sender (stateB.get_balance tx.sender - tx.value)
            s1.set_balance contract_address (s1.get_balance contract_address + tx.value)
          else stateB
        let message : Message :=
          { caller := tx.sender, target := contract_address, value := tx.value, data := []
            gas := gas_remaining, depth := 0, code := tx.data, is_create := true }
        let (itpOut, result0) := execute fuel .shanghai ⟨stateC, tx_env, []⟩ message
        if result0.success then
          -- EIP-170: code size limit
          if result0.return_data.length > 24576 then
            (itpOut.state,
              { success := false, gas_used := tx.gas, gas_remaining := 0
                error := some .codeSizeExceeded })
          else
            let deploy_gas := result0.return_data.length * GasSchedule.G_CODEDEPOSIT
            if result0.gas_remaining ≥ (deploy_gas : Int) then
              (itpOut.state.set_code contract_address result0.return_data,
                { success := true
                  gas_used := tx.gas - result0.gas_remaining + deploy_gas
                  gas_remaining := result0.gas_remaining - deploy_gas
                  return_data := result0.return_data
                  logs := result0.logs
                  created_address := some contract_address })
            else
              (itpOut.state,
                { success := false, gas_used := tx.gas, gas_remaining := 0
                  error := some .codeDeployGas })
        else (itpOut.state, result0)
      | some t =>
        let code := stateB.get_code t
        let stateC :=
          if tx.value > 0 then
            let s1 := stateB.set_balance tx.sender (stateB.get_balance tx.sender - tx.value)
            s1.set_balance t (s1.get_balance t + tx.value)
          else stateB
        let message : Message :=
          { caller := tx.sender, target := t, value := tx.value, data := tx.data
            gas := gas_remaining, depth := 0, code := code }
        let (itpOut, result0) := execute fuel .shanghai ⟨stateC, tx_env, []⟩ message
        (itpOut.state, result0)
    let total_gas_used := if result.success then (intrinsic_gas : Int) + result.gas_used else tx.gas
    let refund := (tx.gas - total_gas_used) * tx.gas_price
    let state3 := state2.set_balance tx.sender (state2.get_balance tx.sender + refund)
    let coinbase_reward := total_gas_used * tx.gas_price
    let state4 := state3.set_balance env.coinbase (state3.get_balance env.coinbase + coinbase_reward)
    (state4,
      { success := result.success
        gas_used := total_gas_used
        gas_remaining := tx.gas - total_gas_used
        return_data := result.return_data
        logs := if result.success then result.logs else []
        error := result.error
        created_address := if result.success then result.created_address else none })

end EVM

namespace EVM

/-! ## Concrete scenarios for the claims -/

/-- A world with sender contract 1 (balance 10) and contract 2 whose code
is a single INVALID byte. -/
def c1aState : State := ⟨[(1, { nonce := 0, balance := 10 }), (2, { code := [0xFE] })]⟩

/-- Contract 1 runs: push ret/arg ranges 0, value 1, address 2, gas hint
0x64, CALL, STOP. -/
def c1aMsg : Message :=
  { caller := 0, target := 1, gas := 100000
    code := [0x60,0x00,0x60,0x00,0x60,0x00,0x60,0x00,0x60,0x01,0x60,0x02,0x60,0x64,0xF1,0x00] }

/-- The Frontier run of the value-bearing CALL whose sub-frame fails. -/
def c1aRun : Interpreter × ExecutionResult := execute 20 .frontier ⟨c1aState, {}, []⟩ c1aMsg

/-- A world with sender contract 1 and contract 3 whose code stores 1 at
storage slot 0 and then REVERTs: PUSH1 1, PUSH1 0, SSTORE, PUSH1 0,
PUSH1 0, REVERT. -/
def c1bState : State := ⟨[(1, { nonce := 0, balance := 10 }),
  (3, { code := [0x60,0x01,0x60,0x00,0x55,0x60,0x00,0x60,0x00,0xFD] })]⟩

/-- Contract 1 calls contract 3 with value 0 and gas hint 30000. -/
def c1bMsg : Message :=
  { caller := 0, target := 1, gas := 100000
    code := [0x60,0x00,0x60,0x00,0x60,0x00,0x60,0x00,0x60,0x00,0x60,0x03,0x61,0x75,0x30,0xF1,0x00] }

/-- The Frontier run of the CALL whose sub-frame SSTOREs and then REVERTs. -/
def c1bRun : Interpreter × ExecutionResult := execute 20 .frontier ⟨c1bState, {}, []⟩ c1bMsg

/-- A funded sender account for the creation transactions. -/
def c2State : State := ⟨[(1, { balance := 1000000 })]⟩

/-- A creation transaction with empty data at exactly the creation
intrinsic gas 53000. -/
def c2Tx : Transaction :=
  { sender := 1, «to» := none, value := 0, data := [], gas := 53000, gas_price := 1, nonce := 0 }

/-- A block environment paying coinbase address 255. -/
def c2Env : Environment := { coinbase := 255 }

/-- The Frontier state transition of the empty creation. -/
def c2Run : State × ExecutionResult := state_transition 20 c2State c2Tx c2Env

/-- A frame hashing the empty memory range and returning the 32 digest
bytes: PUSH1 0, PUSH1 0, SHA3, PUSH1 0, MSTORE, PUSH1 32, PUSH1 0,
RETURN. -/
def c3Msg : Message :=
  { caller := 0, target := 1, gas := 100000
    code := [0x60,0x00,0x60,0x00,0x20,0x60,0x00,0x52,0x60,0x20,0x60,0x00,0xF3] }

/-- The Frontier run of the SHA3 opcode on the empty input. -/
def c3Run : Interpreter × ExecutionResult := execute 20 .frontier ⟨⟨[]⟩, {}, []⟩ c3Msg

/-- A world with sender contract 1 (balance 10) and contract 2 whose code
is a single INVALID byte, for the stipend accounting scenario. -/
def c4aState : State := ⟨[(1, { nonce := 0, balance := 10 }), (2, { code := [0xFE] })]⟩

/-- Contract 1 runs a CALL with value 1, gas hint 0, to the INVALID
contract 2, then STOPs.  The callee consumes everything forwarded to it,
so whatever the caller was debited for the sub-frame stays consumed. -/
def c4aMsg : Message :=
  { caller := 0, target := 1, gas := 100000
    code := [0x60,0x00,0x60,0x00,0x60,0x00,0x60,0x00,0x60,0x01,0x60,0x02,0x60,0x00,0xF1,0x00] }

/-- The Frontier run of the stipend-charging CALL. -/
def c4aRun : Interpreter × ExecutionResult := execute 20 .frontier ⟨c4aState, {}, []⟩ c4aMsg

/-- A world with sender contract 1 (balance 10) and contract 3 whose code
is JUMPDEST, STOP: it succeeds given at least 1 gas and fails out of gas
given 0 gas. -/
def c4bState : State := ⟨[(1, { nonce := 0, balance := 10 }), (3, { code := [0x5B, 0x00] })]⟩

/-- Contract 1 runs a CALLCODE with value 1 and gas hint 0 to contract 3,
stores the pushed success flag at storage slot 0, and STOPs.  With a
stipend the callee would succeed and the flag would be 1. -/
def c4bMsg : Message :=
  { caller := 0, target := 1, gas := 100000
    code := [0x60,0x00,0x60,0x00,0x60,0x00,0x60,0x00,0x60,0x01,0x60,0x03,0x60,0x00,0xF2,
             0x60,0x00,0x55,0x00] }

/-- The Frontier run of the value-bearing CALLCODE. -/
def c4bRun : Interpreter × ExecutionResult := execute 20 .frontier ⟨c4bState, {}, []⟩ c4bMsg

/-- A funded sender account for the Shanghai creation. -/
def c5State : State := ⟨[(1, { balance := 1000000 })]⟩

/-- A Shanghai creation transaction with 32 zero data bytes.  Its base
creation intrinsic is 53000 + 32*4 = 53128 and the EIP-3860 initcode
word cost adds 2, so the full intrinsic cost is 53130; the gas limit
53129 lies strictly between the two. -/
def c5Tx : Transaction :=
  { sender := 1, «to» := none, value := 0, data := List.replicate 32 0, gas := 53129
    gas_price := 1, nonce := 0 }

/-- A block environment paying coinbase address 255. -/
def c5Env : Environment := { coinbase := 255 }

/-- The Shanghai state transition of the under-provisioned creation. -/
def c5Run : State × ExecutionResult := state_transition_shanghai 20 c5State c5Tx c5Env

/-- An interpreter instance on the empty world for the PUSH0 witness. -/
def c6Itp : Interpreter := ⟨⟨[]⟩, {}, []⟩

/-- A one-byte frame whose code is exactly the PUSH0 byte 0x5F. -/
def c6Msg : Message := { caller := 0, target := 1, gas := 5, code := [0x5F] }

end EVM

namespace EVM

/-! ## Theorems -/

/-- C1: the claim states that every State mutation performed inside a
failed sub-frame of CALL/CALLCODE/DELEGATECALL/STATICCALL, including a
value transfer done before invocation, is rolled back.  The code performs
no rollback: in scenario (a) a value-1 CALL whose callee fails on INVALID
leaves the transfer in place (balances 10/0 become 9/1), and in scenario
(b) a CALL whose callee SSTOREs and then REVERTs leaves the storage write
in place (slot 0 of contract 3 reads 1 afterwards); in both cases the
caller frame continues and succeeds. -/
theorem failed_subcall_mutations_persist :
    c1aState.get_balance 1 = 10 ∧ c1aState.get_balance 2 = 0 ∧
    c1aRun.2.success = true ∧
    c1aRun.1.state.get_balance 1 = 9 ∧
    c1aRun.1.state.get_balance 2 = 1 ∧
    c1bState.get_storage 3 0 = 0 ∧
    c1bRun.2.success = true ∧
    c1bRun.1.state.get_storage 3 0 = 1 := by decide

/-- C2: the claim states gas_used ≤ T.gas for every outcome, and that a
successful creation uses intrinsic + init-frame + code-deposit gas.  The
Frontier driver double-counts the intrinsic gas of a successful creation
(the inner result it adds intrinsic_gas to already contains it), so an
empty creation at gas limit 53000 reports gas_used 106000 and pays the
coinbase 106000. -/
theorem creation_gas_used_exceeds_limit :
    c2Tx.gas = 53000 ∧
    c2Run.2.success = true ∧
    c2Run.2.gas_used = 106000 ∧
    c2Run.2.gas_used > c2Tx.gas ∧
    c2Run.1.get_balance 255 = 106000 := by decide

/-- C3: the claim states the 256-bit hash used by the SHA3 opcode and
address derivation is pre-FIPS Keccak-256 (empty-input digest 0xc5d2...)
and not FIPS-202 SHA3-256.  The modelled Keccak-256 does match the
canonical vector, but the source hashes with hashlib.sha3_256, which is
FIPS-202: the SHA3 opcode applied to the empty range returns the FIPS-202
digest 0xa7ff... and not the Keccak one. -/
theorem sha3_opcode_uses_fips202_not_keccak :
    beBytesToNat (keccak256 []) =
      0xc5d2460186f7233c927e7db2dcc703c0e500b653ca82273b7bfad8045d85a470 ∧
    beBytesToNat (sha3_256 []) =
      0xa7ffc6f8bf1ed76651c14756a061d662f580ff4de43b49fa82d80a4b80f8434a ∧
    c3Run.2.success = true ∧
    c3Run.2.return_data = sha3_256 [] ∧
    c3Run.2.return_data ≠ keccak256 [] := by decide

/-- C4: the claim states CALL and CALLCODE with non-zero value add the
2300 stipend to the forwarded gas without charging the caller.  In the
code (a) a value-1 CALL with gas hint 0 whose callee consumes everything
costs the caller 21 (pushes) + 9040 (call cost) + the 2300 stipend, and
(b) a value-1 CALLCODE with gas hint 0 forwards no stipend at all, so a
callee needing 1 gas fails and the stored success flag is 0. -/
theorem call_stipend_accounting_diverges :
    c4aRun.2.success = true ∧
    c4aRun.2.gas_used = 21 + 9040 + (GasSchedule.G_CALLSTIPEND : Int) ∧
    c4bRun.2.success = true ∧
    c4bRun.1.state.get_storage 1 0 = 0 := by decide

/-- C5: the claim states a Shanghai creation with gas below the full
intrinsic cost (base + initcode word cost) is rejected during validation
with gas_used 0 and an untouched state.  The validator only checks the
base intrinsic: the 53129-gas creation with 32 zero data bytes (base
53128, full 53130) passes validation, the sender is debited and its nonce
bumped, and the transaction burns its entire gas limit failing at code
deployment. -/
theorem shanghai_initcode_cost_escapes_validation :
    validate_transaction_shanghai c5Tx c5State = none ∧
    c5Tx.gas <
      ((GasSchedule.transaction_intrinsic_gas c5Tx.data true +
        2 * ((c5Tx.data.length + 31) / 32) : Nat) : Int) ∧
    c5Run.2.success = false ∧
    c5Run.2.gas_used = 53129 ∧
    c5Run.2.error = some EVMError.codeDeployGas ∧
    (c5Run.1.get_account 1).nonce = 1 ∧
    c5Run.1.get_balance 255 = 53129 := by decide

end EVM

namespace EVM

/-- Reducing 0 modulo 2^256 is 0 (u256 of a pushed zero). -/
theorem u256I_zero : u256I 0 = 0 := rfl

/-- C6: dispatching byte 0x5F at any PC position fails the whole frame
with INVALID_OPCODE under Frontier and Homestead, consuming all of the
frame gas, while under Shanghai (given an affordable charge and stack
room, the loop-level preconditions of any push) it charges exactly
G_PUSH0 = 2, pushes 0 onto the stack and advances the PC by 1. -/
theorem push0_fork_dispatch :
    (∀ (f : Nat) (fork : Fork) (itp : Interpreter) (msg : Message) (pc : Nat) (gas : Int)
        (stack : Stack) (mem : Memory) (logs : List Log) (jd : List Nat),
        fork = Fork.frontier ∨ fork = Fork.homestead →
        pc < msg.code.length →
        msg.code.getD pc 0 = 0x5F →
        execLoop (f + 1) fork itp msg pc gas stack mem logs jd
          = (itp, errResult msg.gas EVMError.invalidOpcode)) ∧
    (∀ (f : Nat) (itp : Interpreter) (msg : Message) (pc : Nat) (gas : Int)
        (stack : Stack) (mem : Memory) (logs : List Log) (jd : List Nat),
        pc < msg.code.length →
        msg.code.getD pc 0 = 0x5F →
        2 ≤ gas →
        stack.data.length < 1024 →
        execLoop (f + 1) Fork.shanghai itp msg pc gas stack mem logs jd
          = execLoop f Fork.shanghai itp msg (pc + 1) (gas - 2) ⟨0 :: stack.data⟩ mem logs jd) := by
  constructor
  · intro f fork itp msg pc gas stack mem logs jd hfork hpc hop
    have h95 : msg.code[pc] = 95 := by
      rw [← List.getD_eq_getElem msg.code 0 hpc]; exact hop
    rcases hfork with h | h <;> subst h <;>
      simp [execLoop, hpc, hop, Fork.acceptsPush0] <;>
      exact fun hne => absurd h95 hne
  · intro f itp msg pc gas stack mem logs jd hpc hop hg hs
    have h95 : msg.code[pc] = 95 := by
      rw [← List.getD_eq_getElem msg.code 0 hpc]; exact hop
    have hns : ¬stack.data.length ≥ Stack.MAX_DEPTH := by
      simp [Stack.MAX_DEPTH]; omega
    have hlt : ¬gas < 2 := by omega
    simp [execLoop, hpc, hop, h95, hlt, Fork.acceptsPush0, chargeGas, Stack.push, hns,
      u256I_zero, GasSchedule.G_PUSH0]

/-- C6 witness: on the one-byte code [0x5F] with 5 gas, the Frontier loop
fails the frame with INVALID_OPCODE and the Shanghai loop continues at
PC 1 with 3 gas and a pushed 0. -/
theorem push0_fork_dispatch_witness :
    (execLoop 1 Fork.frontier c6Itp c6Msg 0 5 ⟨[]⟩ ⟨[]⟩ [] []
       = (c6Itp, errResult c6Msg.gas EVMError.invalidOpcode)) ∧
    (execLoop 3 Fork.shanghai c6Itp c6Msg 0 5 ⟨[]⟩ ⟨[]⟩ [] []
       = execLoop 2 Fork.shanghai c6Itp c6Msg 1 3 ⟨[0]⟩ ⟨[]⟩ [] []) :=
  ⟨push0_fork_dispatch.1 0 Fork.frontier c6Itp c6Msg 0 5 ⟨[]⟩ ⟨[]⟩ [] []
      (Or.inl rfl) (by decide) (by decide),
   push0_fork_dispatch.2 2 c6Itp c6Msg 0 5 ⟨[]⟩ ⟨[]⟩ [] [] (by decide) (by decide)
      (by decide) (by decide)⟩

end EVM
